import Mathlib

/-!
Verification of the NVDA price-polling utility (`nvda_cekdataapi.py`).

The program fetches a quote for a symbol from an upstream market-data
provider (yfinance) with a two-tier fallback, prints a summary, appends the
record to a CSV file, and optionally repeats on a fixed schedule.

Shallow embedding choices:
  - Prices are modelled as rationals (ℚ) and volumes as integers (ℤ); none of
    the verified properties depend on binary floating-point rounding.
  - The upstream provider is modelled as an `Upstream` value giving the
    outcome of each of the three requests the code can make
    (`ticker.info`, `ticker.history(period="2d", interval="1m")`,
    `ticker.history(period="5d", interval="1d")`): either an exception
    (`Except.error msg`, any ordinary Python `Exception`) or a result.
  - `ticker.info` yields a dict whose relevant keys may be absent: modelled
    as a `Snapshot` of `Option` fields. `ticker.info or {}` returning a
    falsy value is the all-`none` snapshot.
  - A pandas DataFrame of bars is a `List Bar`, oldest first; `iloc[-1]` is
    `List.getLast`, `iloc[-2]` is index `length - 2`, `.max()`/`.min()` over
    a column is a fold over the list.
  - The Python function returns a dict; `recordToDict` reproduces the exact
    dict literal of the `return` statement (key order, `float`/`int`
    coercions) so that "all fields present and numeric" is a statement about
    the returned dictionary.
-/

/-- One OHLCV bar as returned by `ticker.history` (only the columns the code
reads are modelled). -/
structure Bar where
  high : ℚ
  low : ℚ
  close : ℚ
  volume : ℤ
deriving DecidableEq, Repr

/-- The relevant keys of the `ticker.info` dict; `none` models an absent key
(Python `info.get(k)` returning `None`). Also reused for the state of the
five local variables `current`, `prev_close`, `day_high`, `day_low`,
`volume` during resolution. -/
structure Snapshot where
  currentPrice : Option ℚ
  previousClose : Option ℚ
  dayHigh : Option ℚ
  dayLow : Option ℚ
  volume : Option ℤ
deriving DecidableEq, Repr

/-- The empty dict `{}`. -/
def Snapshot.empty : Snapshot := ⟨none, none, none, none, none⟩

/-- One behaviour of the upstream provider: the outcome of each request
`get_current_price` can make. `Except.error m` models the request raising an
ordinary `Exception` with message `m`. -/
structure Upstream where
  info : Except String Snapshot
  intraday : Except String (List Bar)
  daily : Except String (List Bar)

/-- The value of the local `info` after the first try/except:
`try: info = ticker.info or {} except Exception: info = {}`. -/
def Upstream.snap (u : Upstream) : Snapshot :=
  match u.info with
  | .ok s => s
  | .error _ => Snapshot.empty

/-- `hist["High"].max()` over the nonempty bar frame `b :: bs`. -/
def maxHigh (b : Bar) (bs : List Bar) : ℚ :=
  bs.foldl (fun a x => max a x.high) b.high

/-- `hist["Low"].min()` over the nonempty bar frame `b :: bs`. -/
def minLow (b : Bar) (bs : List Bar) : ℚ :=
  bs.foldl (fun a x => min a x.low) b.low

/-- The `previous_close` value extracted from the daily bar frame `day_hist`:
`float(day_hist["Close"].iloc[-2])` when `len(day_hist) >= 2`, else
`float(day_hist["Close"].iloc[-1])` when nonempty, else `None`. -/
def prevCloseFromDaily (dh : List Bar) : Option ℚ :=
  if 2 ≤ dh.length then (dh[dh.length - 2]?).map Bar.close
  else dh.getLast?.map Bar.close

/-- Result of the two-tier field resolution of `get_current_price`, together
with which history requests were issued. `resolved` is the state of the five
locals just before the final zero-default block; `intradayRequested` /
`dailyRequested` record whether `ticker.history(period="2d", interval="1m")`
and `ticker.history(period="5d", interval="1d")` were called (a call that
raised still counts as requested). -/
structure FetchTrace where
  resolved : Snapshot
  intradayRequested : Bool
  dailyRequested : Bool
deriving DecidableEq, Repr

/-- The field-resolution part of `get_current_price`, lines 28-62 of the
source: read the five fields from `info`, and if any is `None`, run the
history fallback inside a try/except. The Python except-block only logs, and
assignments made before a raise persist: if the daily request raises, the
four fields assigned from the intraday frame keep their values and
`prev_close` stays `None`, which the `.error` branch of the `u.daily` match
reproduces. -/
def fetchResolve (u : Upstream) : FetchTrace :=
  let s := u.snap
  if s.currentPrice.isNone || s.previousClose.isNone || s.dayHigh.isNone
      || s.dayLow.isNone || s.volume.isNone then
    match u.intraday with
    | .error _ => ⟨s, true, false⟩
    | .ok [] => ⟨s, true, false⟩
    | .ok (b :: bs) =>
      let last := (b :: bs).getLast (List.cons_ne_nil b bs)
      let current := match s.currentPrice with
        | none => some last.close
        | some c => some c
      let dayHigh := match s.dayHigh with
        | none => some (maxHigh b bs)
        | some c => some c
      let dayLow := match s.dayLow with
        | none => some (minLow b bs)
        | some c => some c
      let volume := match s.volume with
        | none => some last.volume
        | some c => some c
      match s.previousClose with
      | some p => ⟨⟨current, some p, dayHigh, dayLow, volume⟩, true, false⟩
      | none =>
        match u.daily with
        | .error _ => ⟨⟨current, none, dayHigh, dayLow, volume⟩, true, true⟩
        | .ok dh => ⟨⟨current, prevCloseFromDaily dh, dayHigh, dayLow, volume⟩, true, true⟩
  else ⟨s, false, false⟩

/-- The record built by `get_current_price`: all seven fields, prices as
rationals, volume as an integer, nothing optional. -/
structure QuoteRecord where
  timestamp : String
  symbol : String
  current_price : ℚ
  previous_close : ℚ
  day_high : ℚ
  day_low : ℚ
  volume : ℤ
deriving DecidableEq, Repr

/-- `get_current_price(symbol)`: resolve the five fields through the two
tiers, coerce anything still unresolved to its zero default, and stamp the
record. `now_ts` is the timestamp string taken from the local clock. -/
def get_current_price (symbol now_ts : String) (u : Upstream) : QuoteRecord :=
  let r := (fetchResolve u).resolved
  { timestamp := now_ts
    symbol := symbol
    current_price := r.currentPrice.getD 0
    previous_close := r.previousClose.getD 0
    day_high := r.dayHigh.getD 0
    day_low := r.dayLow.getD 0
    volume := r.volume.getD 0 }

/-- A Python value appearing in the returned dict. -/
inductive PyValue where
  | str (s : String)
  | float (q : ℚ)
  | int (n : ℤ)
deriving DecidableEq, Repr

/-- The dict literal of the `return` statement of `get_current_price`, in key
order, with the `float(...)` / `int(...)` coercions applied. -/
def recordToDict (r : QuoteRecord) : List (String × PyValue) :=
  [("timestamp", .str r.timestamp),
   ("symbol", .str r.symbol),
   ("current_price", .float r.current_price),
   ("previous_close", .float r.previous_close),
   ("day_high", .float r.day_high),
   ("day_low", .float r.day_low),
   ("volume", .int r.volume)]

/-- The same upstream behaviour with every exception degraded to the
data-free success it is treated as: a failing `ticker.info` becomes the empty
dict, a failing history request becomes an empty bar frame. -/
def Upstream.degradeErrors (u : Upstream) : Upstream where
  info := .ok u.snap
  intraday := match u.intraday with
    | .ok l => .ok l
    | .error _ => .ok []
  daily := match u.daily with
    | .ok l => .ok l
    | .error _ => .ok []

/-- An upstream behaviour in which no request raises. -/
def Upstream.errorFree (u : Upstream) : Prop :=
  (∃ s, u.info = .ok s) ∧ (∃ l, u.intraday = .ok l) ∧ (∃ l, u.daily = .ok l)

/-- One line of the CSV file: either the header row (the column names pandas
derives from the dict keys) or one data row carrying a record. -/
inductive CsvLine where
  | header (fields : List String)
  | data (row : QuoteRecord)
deriving DecidableEq, Repr

/-- Whether a CSV line is a header row. -/
def CsvLine.isHeader : CsvLine → Bool
  | .header _ => true
  | .data _ => false

/-- The column names of the DataFrame built from the row dict: the dict keys
in insertion order. -/
def recordFieldNames : List String :=
  ["timestamp", "symbol", "current_price", "previous_close", "day_high",
   "day_low", "volume"]

/-- `append_to_csv(row, csv_path)`. The destination is modelled as
`Option (List CsvLine)`: `none` when no file exists at `csv_path`, otherwise
`some` the existing lines. `header = not os.path.exists(csv_path)`, then
`df.to_csv(csv_path, mode="a", header=header, index=False)` appends the
header (when requested) and the single data row, creating the file if
needed. Returns the lines of the file afterwards. -/
def append_to_csv (row : QuoteRecord) (file : Option (List CsvLine)) : List CsvLine :=
  match file with
  | none => [.header recordFieldNames, .data row]
  | some lines => lines ++ [.data row]

/-- What one execution of the body of `job` does, abstracting the three
stages (`get_current_price`, `print_summary`, `append_to_csv`) into their
observable outcome: it runs to completion, raises an ordinary `Exception`
with a message, or a `KeyboardInterrupt` arrives while it executes. -/
inductive CycleOutcome where
  | success
  | exn (msg : String)
  | interrupt
deriving DecidableEq, Repr

/-- How one call to `job` ends: the body completed, the `except Exception`
handler caught the failure and logged it, or an exception the handler does
not cover (`KeyboardInterrupt` is not an `Exception`) propagated out. -/
inductive JobResult where
  | completed
  | logged (msg : String)
  | raised
deriving DecidableEq, Repr

/-- `job(symbol, csv_path)`: run one fetch-print-append cycle inside
`try: ... except Exception as e: logger.error(...)`. -/
def job : CycleOutcome → JobResult
  | .success => .completed
  | .exn m => .logged m
  | .interrupt => .raised

/-- Observable outcome of a run of the scheduler loop over a finite schedule
of due cycles. `errorsLogged` collects the cycle-failure messages logged by
`job`; `stoppedByInterrupt` is true when the loop exited through its
`except KeyboardInterrupt` handler (clean shutdown); `taskRegistered` is
whether the periodic task registered by `schedule.every(...).do(job)` is
still registered when the run ends (`job` never returns
`schedule.CancelJob` and nothing clears the schedule inside the loop);
`cyclesHandled` counts the `job` invocations that returned. -/
structure LoopResult where
  errorsLogged : List String
  stoppedByInterrupt : Bool
  taskRegistered : Bool
  cyclesHandled : Nat
deriving DecidableEq, Repr

/-- The `while True: schedule.run_pending(); time.sleep(1)` loop of
`run_scheduler`, wrapped in `try: ... except KeyboardInterrupt`, driven by a
finite list of due-cycle outcomes (one entry per tick on which the task is
due; an exhausted list means the loop is still polling). A cycle in which a
`KeyboardInterrupt` arrives makes `job` raise; the loop's handler catches it
and the run ends cleanly, with later scheduled cycles never executed. -/
def run_scheduler : List CycleOutcome → LoopResult
  | [] => ⟨[], false, true, 0⟩
  | c :: rest =>
    match job c with
    | .completed =>
      let r := run_scheduler rest
      ⟨r.errorsLogged, r.stoppedByInterrupt, r.taskRegistered, r.cyclesHandled + 1⟩
    | .logged m =>
      let r := run_scheduler rest
      ⟨m :: r.errorsLogged, r.stoppedByInterrupt, r.taskRegistered, r.cyclesHandled + 1⟩
    | .raised => ⟨[], true, true, 0⟩

/-- The messages of the failing cycles in a schedule, in order. -/
def exnMsgs (cs : List CycleOutcome) : List String :=
  cs.filterMap fun c => match c with
    | .exn m => some m
    | _ => none

/-! Helper lemmas about the column folds used by the intraday fallback. -/

theorem le_foldl_max_high (bs : List Bar) (a : ℚ) :
    a ≤ bs.foldl (fun acc x => max acc x.high) a := by
  induction bs generalizing a with
  | nil => exact le_refl a
  | cons y ys ih => exact le_trans (le_max_left a y.high) (ih (max a y.high))

theorem mem_le_foldl_max_high (bs : List Bar) (a : ℚ) (x : Bar) (hx : x ∈ bs) :
    x.high ≤ bs.foldl (fun acc y => max acc y.high) a := by
  induction bs generalizing a with
  | nil => cases hx
  | cons y ys ih =>
    rcases List.mem_cons.mp hx with h | h
    · subst h
      exact le_trans (le_max_right a x.high) (le_foldl_max_high ys (max a x.high))
    · exact ih (max a y.high) h

theorem foldl_max_high_mem (bs : List Bar) (a : ℚ) :
    bs.foldl (fun acc y => max acc y.high) a = a ∨
      ∃ x ∈ bs, bs.foldl (fun acc y => max acc y.high) a = x.high := by
  induction bs generalizing a with
  | nil => exact Or.inl rfl
  | cons y ys ih =>
    rcases ih (max a y.high) with h | ⟨x, hx, h⟩
    · rcases max_choice a y.high with hm | hm
      · exact Or.inl (by rw [List.foldl_cons, h, hm])
      · exact Or.inr ⟨y, List.mem_cons_self y ys, by rw [List.foldl_cons, h, hm]⟩
    · exact Or.inr ⟨x, List.mem_cons_of_mem y hx, by rw [List.foldl_cons, h]⟩

theorem foldl_min_low_le (bs : List Bar) (a : ℚ) :
    bs.foldl (fun acc x => min acc x.low) a ≤ a := by
  induction bs generalizing a with
  | nil => exact le_refl a
  | cons y ys ih => exact le_trans (ih (min a y.low)) (min_le_left a y.low)

theorem foldl_min_low_le_mem (bs : List Bar) (a : ℚ) (x : Bar) (hx : x ∈ bs) :
    bs.foldl (fun acc y => min acc y.low) a ≤ x.low := by
  induction bs generalizing a with
  | nil => cases hx
  | cons y ys ih =>
    rcases List.mem_cons.mp hx with h | h
    · subst h
      exact le_trans (foldl_min_low_le ys (min a x.low)) (min_le_right a x.low)
    · exact ih (min a y.low) h

theorem foldl_min_low_mem (bs : List Bar) (a : ℚ) :
    bs.foldl (fun acc y => min acc y.low) a = a ∨
      ∃ x ∈ bs, bs.foldl (fun acc y => min acc y.low) a = x.low := by
  induction bs generalizing a with
  | nil => exact Or.inl rfl
  | cons y ys ih =>
    rcases ih (min a y.low) with h | ⟨x, hx, h⟩
    · rcases min_choice a y.low with hm | hm
      · exact Or.inl (by rw [List.foldl_cons, h, hm])
      · exact Or.inr ⟨y, List.mem_cons_self y ys, by rw [List.foldl_cons, h, hm]⟩
    · exact Or.inr ⟨x, List.mem_cons_of_mem y hx, by rw [List.foldl_cons, h]⟩

theorem maxHigh_mem (b : Bar) (bs : List Bar) :
    maxHigh b bs ∈ (b :: bs).map Bar.high := by
  rcases foldl_max_high_mem bs b.high with h | ⟨x, hx, h⟩
  · rw [maxHigh, h]
    exact List.mem_map_of_mem Bar.high (List.mem_cons_self b bs)
  · rw [maxHigh, h]
    exact List.mem_map_of_mem Bar.high (List.mem_cons_of_mem b hx)

theorem le_maxHigh (b : Bar) (bs : List Bar) (x : ℚ)
    (hx : x ∈ (b :: bs).map Bar.high) : x ≤ maxHigh b bs := by
  rcases List.mem_map.mp hx with ⟨y, hy, rfl⟩
  rcases List.mem_cons.mp hy with h | h
  · subst h
    exact le_foldl_max_high bs y.high
  · exact mem_le_foldl_max_high bs b.high y h

theorem minLow_mem (b : Bar) (bs : List Bar) :
    minLow b bs ∈ (b :: bs).map Bar.low := by
  rcases foldl_min_low_mem bs b.low with h | ⟨x, hx, h⟩
  · rw [minLow, h]
    exact List.mem_map_of_mem Bar.low (List.mem_cons_self b bs)
  · rw [minLow, h]
    exact List.mem_map_of_mem Bar.low (List.mem_cons_of_mem b hx)

theorem minLow_le (b : Bar) (bs : List Bar) (x : ℚ)
    (hx : x ∈ (b :: bs).map Bar.low) : minLow b bs ≤ x := by
  rcases List.mem_map.mp hx with ⟨y, hy, rfl⟩
  rcases List.mem_cons.mp hy with h | h
  · subst h
    exact foldl_min_low_le bs y.low
  · exact foldl_min_low_le_mem bs b.low y h

/-- Degrading every upstream exception to the corresponding empty success
leaves the resolved fields unchanged: exceptions are caught where the data
they replace would have been used. -/
theorem fetchResolve_degrade (u : Upstream) :
    (fetchResolve u.degradeErrors).resolved = (fetchResolve u).resolved := by
  rcases u with ⟨info, intraday, daily⟩
  cases info <;> rcases intraday with e | (_ | ⟨b, bs⟩) <;> cases daily <;> rfl

/-- C1: for every symbol and every behaviour of the upstream provider,
including any of the three requests raising, `get_current_price` does not
raise and returns a complete `QuoteRecord`: every error is absorbed
internally, so the result coincides with the result for the error-free
behaviour in which each failing request instead returned no data, and that
degraded behaviour raises nowhere. -/
theorem fetch_never_fails (s t : String) (u : Upstream) :
    get_current_price s t u = get_current_price s t u.degradeErrors ∧
    u.degradeErrors.errorFree := by
  refine ⟨?_, ⟨u.snap, rfl⟩, ?_, ?_⟩
  · unfold get_current_price
    rw [fetchResolve_degrade]
  · rcases u with ⟨info, intraday, daily⟩
    cases intraday with
    | error e => exact ⟨[], rfl⟩
    | ok l => exact ⟨l, rfl⟩
  · rcases u with ⟨info, intraday, daily⟩
    cases daily with
    | error e => exact ⟨[], rfl⟩
    | ok l => exact ⟨l, rfl⟩

/-- C2: for every upstream outcome the returned dict has all seven fields
present with the right runtime types (strings for timestamp and symbol,
floats for the four prices, an int for volume), never `None`; and when both
the snapshot and the intraday request fail, every field is coerced to its
zero default. -/
theorem fetch_record_complete (s t : String) (u : Upstream) :
    (∃ cp pc dh dl : ℚ, ∃ v : ℤ,
      recordToDict (get_current_price s t u) =
        [("timestamp", .str t),
         ("symbol", .str s),
         ("current_price", .float cp),
         ("previous_close", .float pc),
         ("day_high", .float dh),
         ("day_low", .float dl),
         ("volume", .int v)]) ∧
    (∀ e1 e2 : String, ∀ d : Except String (List Bar),
      get_current_price s t ⟨.error e1, .error e2, d⟩ = ⟨t, s, 0, 0, 0, 0, 0⟩) :=
  ⟨⟨_, _, _, _, _, rfl⟩, fun _ _ _ => rfl⟩

/-- C3: when `previous_close` is missing from the snapshot and the daily-bar
fallback is consulted (intraday bars being nonempty), daily closes
`[10, 12, 15]` (oldest to newest) resolve `previous_close` to `12` (the
second-to-last close), a single daily bar with close `10` resolves it to
`10`, and zero daily bars leave the default `0`. -/
theorem prev_close_fallback (s t : String) (snap : Snapshot)
    (hprev : snap.previousClose = none) (ib d1 d2 d3 : Bar)
    (h1 : d1.close = 10) (h2 : d2.close = 12) (h3 : d3.close = 15) :
    (get_current_price s t ⟨.ok snap, .ok [ib], .ok [d1, d2, d3]⟩).previous_close = 12 ∧
    (get_current_price s t ⟨.ok snap, .ok [ib], .ok [d1]⟩).previous_close = 10 ∧
    (get_current_price s t ⟨.ok snap, .ok [ib], .ok []⟩).previous_close = 0 := by
  rcases snap with ⟨c, p, dh, dl, v⟩
  obtain rfl : p = none := hprev
  refine ⟨?_, ?_, ?_⟩ <;>
    simp [get_current_price, fetchResolve, Upstream.snap, prevCloseFromDaily, h1, h2, h3]

/-- C3 witness: the three scenarios at concrete inputs. -/
theorem prev_close_fallback_witness :
    (get_current_price "NVDA" "2026-10-12 09:30:00"
      ⟨.ok ⟨some 1, none, some 2, some 1, some 5⟩, .ok [⟨1, 1, 1, 1⟩],
       .ok [⟨0, 0, 10, 0⟩, ⟨0, 0, 12, 0⟩, ⟨0, 0, 15, 0⟩]⟩).previous_close = 12 ∧
    (get_current_price "NVDA" "2026-10-12 09:30:00"
      ⟨.ok ⟨some 1, none, some 2, some 1, some 5⟩, .ok [⟨1, 1, 1, 1⟩],
       .ok [⟨0, 0, 10, 0⟩]⟩).previous_close = 10 ∧
    (get_current_price "NVDA" "2026-10-12 09:30:00"
      ⟨.ok ⟨some 1, none, some 2, some 1, some 5⟩, .ok [⟨1, 1, 1, 1⟩],
       .ok []⟩).previous_close = 0 :=
  prev_close_fallback "NVDA" "2026-10-12 09:30:00" ⟨some 1, none, some 2, some 1, some 5⟩
    rfl ⟨1, 1, 1, 1⟩ ⟨0, 0, 10, 0⟩ ⟨0, 0, 12, 0⟩ ⟨0, 0, 15, 0⟩ rfl rfl rfl

/-- C4: when the snapshot supplies all five fields, neither history request
is issued (tier-1 short-circuit) and the record carries exactly the
snapshot's values. -/
theorem snapshot_short_circuit (s t : String) (u : Upstream) (cp pc dh dl : ℚ)
    (v : ℤ) (h1 : u.snap.currentPrice = some cp)
    (h2 : u.snap.previousClose = some pc) (h3 : u.snap.dayHigh = some dh)
    (h4 : u.snap.dayLow = some dl) (h5 : u.snap.volume = some v) :
    (fetchResolve u).intradayRequested = false ∧
    (fetchResolve u).dailyRequested = false ∧
    get_current_price s t u = ⟨t, s, cp, pc, dh, dl, v⟩ := by
  refine ⟨?_, ?_, ?_⟩ <;>
    simp [fetchResolve, get_current_price, h1, h2, h3, h4, h5]

/-- C4 witness: a complete snapshot short-circuits even when both history
requests would raise. -/
theorem snapshot_short_circuit_witness :
    (fetchResolve ⟨.ok ⟨some 181, some 178, some 183, some 177, some 400⟩,
      .error "network down", .error "network down 2"⟩).intradayRequested = false ∧
    (fetchResolve ⟨.ok ⟨some 181, some 178, some 183, some 177, some 400⟩,
      .error "network down", .error "network down 2"⟩).dailyRequested = false ∧
    get_current_price "NVDA" "2026-10-12 09:31:00"
      ⟨.ok ⟨some 181, some 178, some 183, some 177, some 400⟩,
       .error "network down", .error "network down 2"⟩ =
      ⟨"2026-10-12 09:31:00", "NVDA", 181, 178, 183, 177, 400⟩ :=
  snapshot_short_circuit "NVDA" "2026-10-12 09:31:00"
    ⟨.ok ⟨some 181, some 178, some 183, some 177, some 400⟩,
     .error "network down", .error "network down 2"⟩
    181 178 183 177 400 rfl rfl rfl rfl rfl

/-- C5: when the snapshot resolves none of the five fields and the intraday
request returns a nonempty bar frame, `day_high` is the maximum of the bars'
highs, `day_low` the minimum of the bars' lows, and `current_price` /
`volume` are the last bar's close / volume. -/
theorem bars_resolution (s t : String) (u : Upstream) (b : Bar) (bs : List Bar)
    (hsnap : u.snap = Snapshot.empty) (hintra : u.intraday = .ok (b :: bs)) :
    ((get_current_price s t u).day_high ∈ (b :: bs).map Bar.high ∧
      ∀ x ∈ (b :: bs).map Bar.high, x ≤ (get_current_price s t u).day_high) ∧
    ((get_current_price s t u).day_low ∈ (b :: bs).map Bar.low ∧
      ∀ x ∈ (b :: bs).map Bar.low, (get_current_price s t u).day_low ≤ x) ∧
    (get_current_price s t u).current_price =
      ((b :: bs).getLast (List.cons_ne_nil b bs)).close ∧
    (get_current_price s t u).volume =
      ((b :: bs).getLast (List.cons_ne_nil b bs)).volume := by
  have hdh : (get_current_price s t u).day_high = maxHigh b bs := by
    rcases hd : u.daily with e | l <;>
      simp [get_current_price, fetchResolve, hsnap, hintra, hd, Snapshot.empty]
  have hdl : (get_current_price s t u).day_low = minLow b bs := by
    rcases hd : u.daily with e | l <;>
      simp [get_current_price, fetchResolve, hsnap, hintra, hd, Snapshot.empty]
  have hcp : (get_current_price s t u).current_price =
      ((b :: bs).getLast (List.cons_ne_nil b bs)).close := by
    rcases hd : u.daily with e | l <;>
      simp [get_current_price, fetchResolve, hsnap, hintra, hd, Snapshot.empty]
  have hv : (get_current_price s t u).volume =
      ((b :: bs).getLast (List.cons_ne_nil b bs)).volume := by
    rcases hd : u.daily with e | l <;>
      simp [get_current_price, fetchResolve, hsnap, hintra, hd, Snapshot.empty]
  rw [hdh, hdl]
  exact ⟨⟨maxHigh_mem b bs, le_maxHigh b bs⟩, ⟨minLow_mem b bs, minLow_le b bs⟩, hcp, hv⟩

/-- C5 witness: two intraday bars with a failing daily request. -/
theorem bars_resolution_witness :
    ((get_current_price "NVDA" "2026-10-12 09:32:00"
        ⟨.ok Snapshot.empty, .ok [⟨5, 1, 2, 100⟩, ⟨7, 3, 4, 200⟩], .error "boom"⟩).day_high
        ∈ [(⟨5, 1, 2, 100⟩ : Bar), (⟨7, 3, 4, 200⟩ : Bar)].map Bar.high ∧
      ∀ x ∈ [(⟨5, 1, 2, 100⟩ : Bar), (⟨7, 3, 4, 200⟩ : Bar)].map Bar.high,
        x ≤ (get_current_price "NVDA" "2026-10-12 09:32:00"
          ⟨.ok Snapshot.empty, .ok [⟨5, 1, 2, 100⟩, ⟨7, 3, 4, 200⟩], .error "boom"⟩).day_high) ∧
    ((get_current_price "NVDA" "2026-10-12 09:32:00"
        ⟨.ok Snapshot.empty, .ok [⟨5, 1, 2, 100⟩, ⟨7, 3, 4, 200⟩], .error "boom"⟩).day_low
        ∈ [(⟨5, 1, 2, 100⟩ : Bar), (⟨7, 3, 4, 200⟩ : Bar)].map Bar.low ∧
      ∀ x ∈ [(⟨5, 1, 2, 100⟩ : Bar), (⟨7, 3, 4, 200⟩ : Bar)].map Bar.low,
        (get_current_price "NVDA" "2026-10-12 09:32:00"
          ⟨.ok Snapshot.empty, .ok [⟨5, 1, 2, 100⟩, ⟨7, 3, 4, 200⟩], .error "boom"⟩).day_low ≤ x) ∧
    (get_current_price "NVDA" "2026-10-12 09:32:00"
        ⟨.ok Snapshot.empty, .ok [⟨5, 1, 2, 100⟩, ⟨7, 3, 4, 200⟩], .error "boom"⟩).current_price =
      (([(⟨5, 1, 2, 100⟩ : Bar), (⟨7, 3, 4, 200⟩ : Bar)]).getLast
        (List.cons_ne_nil (⟨5, 1, 2, 100⟩ : Bar) [(⟨7, 3, 4, 200⟩ : Bar)])).close ∧
    (get_current_price "NVDA" "2026-10-12 09:32:00"
        ⟨.ok Snapshot.empty, .ok [⟨5, 1, 2, 100⟩, ⟨7, 3, 4, 200⟩], .error "boom"⟩).volume =
      (([(⟨5, 1, 2, 100⟩ : Bar), (⟨7, 3, 4, 200⟩ : Bar)]).getLast
        (List.cons_ne_nil (⟨5, 1, 2, 100⟩ : Bar) [(⟨7, 3, 4, 200⟩ : Bar)])).volume :=
  bars_resolution "NVDA" "2026-10-12 09:32:00"
    ⟨.ok Snapshot.empty, .ok [⟨5, 1, 2, 100⟩, ⟨7, 3, 4, 200⟩], .error "boom"⟩
    ⟨5, 1, 2, 100⟩ [⟨7, 3, 4, 200⟩] rfl rfl

/-- C8: when the intraday request returns an empty frame, the daily request
is never issued and every field left unresolved by the snapshot keeps its
zero default, whatever daily bars would have been available. -/
theorem empty_intraday_skips_daily (s t : String) (u : Upstream)
    (h : u.intraday = .ok []) :
    (fetchResolve u).dailyRequested = false ∧
    get_current_price s t u =
      { timestamp := t
        symbol := s
        current_price := u.snap.currentPrice.getD 0
        previous_close := u.snap.previousClose.getD 0
        day_high := u.snap.dayHigh.getD 0
        day_low := u.snap.dayLow.getD 0
        volume := u.snap.volume.getD 0 } := by
  constructor
  · simp only [fetchResolve, h]
    split <;> rfl
  · simp only [get_current_price, fetchResolve, h]
    split <;> rfl

/-- C8 witness: an empty intraday frame with daily bars available; the
snapshot's one resolved field survives, everything else defaults to zero. -/
theorem empty_intraday_skips_daily_witness :
    (fetchResolve ⟨.ok ⟨some 3, none, none, none, none⟩, .ok [],
      .ok [⟨0, 0, 9, 0⟩, ⟨0, 0, 11, 0⟩]⟩).dailyRequested = false ∧
    get_current_price "NVDA" "2026-10-12 09:33:00"
      ⟨.ok ⟨some 3, none, none, none, none⟩, .ok [],
       .ok [⟨0, 0, 9, 0⟩, ⟨0, 0, 11, 0⟩]⟩ =
      { timestamp := "2026-10-12 09:33:00"
        symbol := "NVDA"
        current_price := (some (3 : ℚ)).getD 0
        previous_close := (none : Option ℚ).getD 0
        day_high := (none : Option ℚ).getD 0
        day_low := (none : Option ℚ).getD 0
        volume := (none : Option ℤ).getD 0 } :=
  empty_intraday_skips_daily "NVDA" "2026-10-12 09:33:00"
    ⟨.ok ⟨some 3, none, none, none, none⟩, .ok [],
     .ok [⟨0, 0, 9, 0⟩, ⟨0, 0, 11, 0⟩]⟩ rfl

/-- C6: persisting to a destination with no existing file writes exactly one
header row, listing the record's field names, followed by one data row; every
persist to an existing file appends exactly one data row and adds no header. -/
theorem csv_header_once (r : QuoteRecord) :
    (append_to_csv r none = [.header recordFieldNames, .data r] ∧
      (append_to_csv r none).countP CsvLine.isHeader = 1) ∧
    ∀ (lines : List CsvLine) (r2 : QuoteRecord),
      append_to_csv r2 (some lines) = lines ++ [.data r2] ∧
      (append_to_csv r2 (some lines)).countP CsvLine.isHeader =
        lines.countP CsvLine.isHeader := by
  refine ⟨⟨rfl, rfl⟩, fun lines r2 => ⟨rfl, ?_⟩⟩
  simp [append_to_csv, List.countP_append, CsvLine.isHeader]

/-- C9: the header decision of `append_to_csv` looks only at file existence,
never at contents: persisting to an existing but empty file appends one data
row and writes no header, and persisting to any existing file leaves its
header count unchanged. -/
theorem csv_header_existence_only (r : QuoteRecord) :
    append_to_csv r (some []) = [.data r] ∧
    ∀ lines : List CsvLine,
      append_to_csv r (some lines) = lines ++ [.data r] ∧
      (append_to_csv r (some lines)).countP CsvLine.isHeader =
        lines.countP CsvLine.isHeader := by
  refine ⟨rfl, fun lines => ⟨rfl, ?_⟩⟩
  simp [append_to_csv, List.countP_append, CsvLine.isHeader]

/-- C7: when no interrupt arrives, every cycle failure is caught at the
boundary of `job` and logged, the task stays registered, and the loop handles
every scheduled occurrence. -/
theorem cycle_failure_contained (cs : List CycleOutcome)
    (h : CycleOutcome.interrupt ∉ cs) :
    run_scheduler cs = ⟨exnMsgs cs, false, true, cs.length⟩ := by
  induction cs with
  | nil => rfl
  | cons c rest ih =>
    simp only [List.mem_cons, not_or] at h
    obtain ⟨h1, h2⟩ := h
    cases c with
    | success =>
      simp [run_scheduler, job, exnMsgs, List.filterMap_cons, ih h2]
    | exn m =>
      simp [run_scheduler, job, exnMsgs, List.filterMap_cons, ih h2]
    | interrupt => exact absurd rfl h1

/-- C7 witness: a run with one failing cycle among three. -/
theorem cycle_failure_contained_witness :
    CycleOutcome.interrupt ∉
      [CycleOutcome.success, CycleOutcome.exn "boom", CycleOutcome.success] ∧
    run_scheduler [CycleOutcome.success, CycleOutcome.exn "boom", CycleOutcome.success] =
      ⟨exnMsgs [CycleOutcome.success, CycleOutcome.exn "boom", CycleOutcome.success],
       false, true, 3⟩ :=
  ⟨by decide, cycle_failure_contained
    [CycleOutcome.success, CycleOutcome.exn "boom", CycleOutcome.success] (by decide)⟩

/-- C10: a `KeyboardInterrupt` arriving during a cycle is not caught by the
`except Exception` boundary of `job` — it propagates — and the scheduler
loop's own handler ends the run cleanly, without logging it as a cycle
failure: only the ordinary failures of the preceding cycles are logged. -/
theorem interrupt_not_logged (pre rest : List CycleOutcome)
    (h : CycleOutcome.interrupt ∉ pre) :
    job CycleOutcome.interrupt = JobResult.raised ∧
    run_scheduler (pre ++ CycleOutcome.interrupt :: rest) =
      ⟨exnMsgs pre, true, true, pre.length⟩ := by
  refine ⟨rfl, ?_⟩
  induction pre with
  | nil => rfl
  | cons c cs ih =>
    simp only [List.mem_cons, not_or] at h
    obtain ⟨h1, h2⟩ := h
    cases c with
    | success =>
      simp [run_scheduler, job, exnMsgs, List.filterMap_cons, ih h2]
    | exn m =>
      simp [run_scheduler, job, exnMsgs, List.filterMap_cons, ih h2]
    | interrupt => exact absurd rfl h1

/-- C10 witness: one failing cycle, then an interrupt, with one more cycle
scheduled after it that never runs. -/
theorem interrupt_not_logged_witness :
    CycleOutcome.interrupt ∉ [CycleOutcome.exn "boom"] ∧
    (job CycleOutcome.interrupt = JobResult.raised ∧
      run_scheduler ([CycleOutcome.exn "boom"] ++
          CycleOutcome.interrupt :: [CycleOutcome.success]) =
        ⟨exnMsgs [CycleOutcome.exn "boom"], true, true, 1⟩) :=
  ⟨by decide, interrupt_not_logged [CycleOutcome.exn "boom"] [CycleOutcome.success]
    (by decide)⟩
